import Mathlib

/-!
Verification of the Khewat land-area converter (src/app.py).

The core of the repository is a mixed-radix unit converter: per-row
normalization of (Kanal, Marla) into a Sarshai count, aggregation of a row
set, and decomposition of the grand total into (Kila, Kanal, Marla, Sarshai).
Python numerics are modelled by ℚ (pandas coerces the columns to numbers;
integer inputs stay exact), Python floor division `//` by `pyFloorDiv` and
Python `%` by `pyMod`.
-/

/-- Conversion constant from src/app.py line 8: `MARLA_PER_SARSHAI = 9`. -/
def MARLA_PER_SARSHAI : ℚ := 9

/-- Conversion constant from src/app.py line 9: `KANAL_PER_MARLA = 20`. -/
def KANAL_PER_MARLA : ℚ := 20

/-- Conversion constant from src/app.py line 10: `KILA_PER_KANAL = 8`. -/
def KILA_PER_KANAL : ℚ := 8

/-- Embedding of `convert_to_standard_units` (src/app.py lines 12-15):
`total_sarshai = (kanal * KANAL_PER_MARLA * MARLA_PER_SARSHAI) + (marla * MARLA_PER_SARSHAI)`. -/
def convert_to_standard_units (kanal marla : ℚ) : ℚ :=
  kanal * KANAL_PER_MARLA * MARLA_PER_SARSHAI + marla * MARLA_PER_SARSHAI

/-- Python floor division `a // b` on exact numerics: the floor of the true
quotient, returned as a number (Python returns a float when an operand is a
float, an int otherwise; the value is the same). -/
def pyFloorDiv (a b : ℚ) : ℚ := (⌊a / b⌋ : ℤ)

/-- Python modulo `a % b` on exact numerics: `a % b = a - b * (a // b)`. -/
def pyMod (a b : ℚ) : ℚ := a - b * pyFloorDiv a b

/-- Embedding of `convert_from_sarshai` (src/app.py lines 17-28): successive
floor division and remainder against 8*20*9, 20*9 and 9, most significant
unit first. The Python code reassigns `remainder`; here the second value is
named `remainder2`. -/
def convert_from_sarshai (total_sarshai : ℚ) : ℚ × ℚ × ℚ × ℚ :=
  let kila := pyFloorDiv total_sarshai (KILA_PER_KANAL * KANAL_PER_MARLA * MARLA_PER_SARSHAI)
  let remainder := pyMod total_sarshai (KILA_PER_KANAL * KANAL_PER_MARLA * MARLA_PER_SARSHAI)
  let kanal := pyFloorDiv remainder (KANAL_PER_MARLA * MARLA_PER_SARSHAI)
  let remainder2 := pyMod remainder (KANAL_PER_MARLA * MARLA_PER_SARSHAI)
  let marla := pyFloorDiv remainder2 MARLA_PER_SARSHAI
  let sarshai := pyMod remainder2 MARLA_PER_SARSHAI
  (kila, kanal, marla, sarshai)

lemma kila_ratio_eq : KILA_PER_KANAL * KANAL_PER_MARLA * MARLA_PER_SARSHAI = (1440 : ℚ) := by
  norm_num [KILA_PER_KANAL, KANAL_PER_MARLA, MARLA_PER_SARSHAI]

lemma kanal_ratio_eq : KANAL_PER_MARLA * MARLA_PER_SARSHAI = (180 : ℚ) := by
  norm_num [KANAL_PER_MARLA, MARLA_PER_SARSHAI]

lemma convert_from_sarshai_eq (t : ℚ) :
    convert_from_sarshai t =
      (pyFloorDiv t 1440, pyFloorDiv (pyMod t 1440) 180,
       pyFloorDiv (pyMod (pyMod t 1440) 180) 9,
       pyMod (pyMod (pyMod t 1440) 180) 9) := by
  simp only [convert_from_sarshai]
  norm_num [KILA_PER_KANAL, KANAL_PER_MARLA, MARLA_PER_SARSHAI]

/-- C1: for every non-negative integer total, the components of
`convert_from_sarshai total` satisfy
`kila*1440 + kanal*180 + marla*9 + sarshai = total`. -/
theorem convert_from_sarshai_roundtrip (n : ℕ) :
    (convert_from_sarshai (n : ℚ)).1 * 1440 + (convert_from_sarshai (n : ℚ)).2.1 * 180 +
      (convert_from_sarshai (n : ℚ)).2.2.1 * 9 + (convert_from_sarshai (n : ℚ)).2.2.2
      = (n : ℚ) := by
  simp only [convert_from_sarshai_eq, pyMod]
  ring

lemma pyFloorDiv_natCast (m k : ℕ) : pyFloorDiv (m : ℚ) (k : ℚ) = ((m / k : ℕ) : ℚ) := by
  simp only [pyFloorDiv, Rat.floor_natCast_div_natCast]
  norm_cast

lemma pyMod_natCast (m k : ℕ) : pyMod (m : ℚ) (k : ℚ) = ((m % k : ℕ) : ℚ) := by
  have h := Nat.mod_add_div m k
  simp only [pyMod, pyFloorDiv_natCast]
  have hq : ((m % k + k * (m / k) : ℕ) : ℚ) = ((m : ℕ) : ℚ) := by rw [h]
  push_cast at hq ⊢
  linarith

/-- Decomposition of a natural-number total computes the successive Nat
quotients and remainders by 1440, 180 and 9. -/
lemma convert_from_sarshai_natCast (n : ℕ) :
    convert_from_sarshai (n : ℚ) =
      (((n / 1440 : ℕ) : ℚ), ((n % 1440 / 180 : ℕ) : ℚ),
       ((n % 1440 % 180 / 9 : ℕ) : ℚ), ((n % 1440 % 180 % 9 : ℕ) : ℚ)) := by
  have h1440 : ((1440 : ℕ) : ℚ) = 1440 := by norm_num
  have h180 : ((180 : ℕ) : ℚ) = 180 := by norm_num
  have h9 : ((9 : ℕ) : ℚ) = 9 := by norm_num
  rw [convert_from_sarshai_eq, ← h1440, ← h180, ← h9, pyMod_natCast, pyMod_natCast,
    pyMod_natCast, pyFloorDiv_natCast, pyFloorDiv_natCast, pyFloorDiv_natCast]

/-- C2: for every non-negative integer total, the decomposed tuple satisfies
`0 ≤ kanal < 8`, `0 ≤ marla < 20`, `0 ≤ sarshai < 9`, and it is the unique
tuple of non-negative integers with those bounds reassembling to the total. -/
theorem convert_from_sarshai_canonical (n : ℕ) :
    (0 ≤ (convert_from_sarshai (n : ℚ)).2.1 ∧ (convert_from_sarshai (n : ℚ)).2.1 < 8) ∧
    (0 ≤ (convert_from_sarshai (n : ℚ)).2.2.1 ∧ (convert_from_sarshai (n : ℚ)).2.2.1 < 20) ∧
    (0 ≤ (convert_from_sarshai (n : ℚ)).2.2.2 ∧ (convert_from_sarshai (n : ℚ)).2.2.2 < 9) ∧
    (∀ a b c d : ℕ, b < 8 → c < 20 → d < 9 → 1440 * a + 180 * b + 9 * c + d = n →
      convert_from_sarshai (n : ℚ) = (((a : ℕ) : ℚ), ((b : ℕ) : ℚ), ((c : ℕ) : ℚ), ((d : ℕ) : ℚ))) := by
  simp only [convert_from_sarshai_natCast]
  refine ⟨⟨by positivity, ?_⟩, ⟨by positivity, ?_⟩, ⟨by positivity, ?_⟩, ?_⟩
  · exact_mod_cast show n % 1440 / 180 < 8 by omega
  · exact_mod_cast show n % 1440 % 180 / 9 < 20 by omega
  · exact_mod_cast show n % 1440 % 180 % 9 < 9 by omega
  · intro a b c d hb hc hd habcd
    have h1 : n / 1440 = a := by omega
    have h2 : n % 1440 / 180 = b := by omega
    have h3 : n % 1440 % 180 / 9 = c := by omega
    have h4 : n % 1440 % 180 % 9 = d := by omega
    rw [h1, h2, h3, h4]

/-- Witness for C2 at total 198 = 1440*0 + 180*1 + 9*2 + 0. -/
theorem convert_from_sarshai_canonical_witness :
    convert_from_sarshai ((198 : ℕ) : ℚ) =
      (((0 : ℕ) : ℚ), ((1 : ℕ) : ℚ), ((2 : ℕ) : ℚ), ((0 : ℕ) : ℚ)) :=
  (convert_from_sarshai_canonical 198).2.2.2 0 1 2 0 (by norm_num) (by norm_num)
    (by norm_num) (by norm_num)

/-- C3: `convert_to_standard_units kanal marla` equals `kanal * 180 + marla * 9`
for all numeric inputs; as a Lean function it is pure and deterministic. -/
theorem convert_to_standard_units_formula (kanal marla : ℚ) :
    convert_to_standard_units kanal marla = kanal * 180 + marla * 9 := by
  simp only [convert_to_standard_units, KANAL_PER_MARLA, MARLA_PER_SARSHAI]
  ring

/-- C4: summation commutes with per-row conversion: the sum of the per-row
base-unit values of a list of (kanal, marla) pairs equals the conversion of
the column sums. -/
theorem sum_convert_to_standard_units (L : List (ℚ × ℚ)) :
    (L.map (fun p => convert_to_standard_units p.1 p.2)).sum =
      convert_to_standard_units (L.map Prod.fst).sum (L.map Prod.snd).sum := by
  induction L with
  | nil => simp [convert_to_standard_units]
  | cons p L ih =>
      rw [List.map_cons, List.map_cons, List.map_cons, List.sum_cons, List.sum_cons,
        List.sum_cons, ih]
      simp only [convert_to_standard_units]
      ring

/-!
Row-set model for `process_data` (src/app.py lines 30-45). A cell is a
number, a string, or missing (pandas NaN); a row is an association list from
column names to cells; a data frame carries its column list and its rows.
Accessing a missing column raises `KeyError` with the column name as the
message, modelled by `Except.error`.
-/

/-- A cell of the row set: a number, a raw string, or missing (NaN). -/
inductive Value where
  | num (q : ℚ)
  | str (s : String)
  | na
deriving DecidableEq, Repr

/-- Per-cell effect of `pd.to_numeric(df[c], errors='coerce').fillna(0)`
(src/app.py lines 33-34): numbers kept, integer-string cells parsed,
non-numeric strings and missing cells coerced to 0. -/
def coerceCell (v : Value) : ℚ :=
  match v with
  | .num q => q
  | .str s =>
    match s.toInt? with
    | some z => (z : ℚ)
    | none => 0
  | .na => 0

/-- A row: an association list from column names to cells. -/
abbrev Row := List (String × Value)

/-- A data frame: the column names and the rows. -/
structure DataFrame where
  cols : List String
  rows : List Row
deriving DecidableEq, Repr

/-- Reading a cell of a row; a key the row lacks reads as missing (NaN). -/
def getCell (r : Row) (c : String) : Value := (r.lookup c).getD .na

/-- Replacing the value stored under a key that the row already has. -/
def setCell (r : Row) (c : String) (v : Value) : Row :=
  r.map fun p => if p.1 = c then (p.1, v) else p

/-- pandas cell assignment on one row: overwrites the value under the key
when the row has it, appends the key as a new rightmost entry otherwise. -/
def putCell (r : Row) (c : String) (v : Value) : Row :=
  if (r.lookup c).isSome then setCell r c v else r ++ [(c, v)]

/-- pandas column assignment `df[c] = f(row)`: writes `f r` under `c` in
every row, and records `c` as a new rightmost column when it was absent. -/
def assignCol (df : DataFrame) (c : String) (f : Row → Value) : DataFrame :=
  ⟨if c ∈ df.cols then df.cols else df.cols ++ [c],
   df.rows.map fun r => putCell r c (f r)⟩

/-- Stage one of `process_data` (src/app.py lines 33-34): both unit columns
coerced to numbers in place,
`df['Kanal'] = pd.to_numeric(df['Kanal'], errors='coerce').fillna(0)` and
the same for `Marla`. -/
def df_coerced (df : DataFrame) : DataFrame :=
  assignCol (assignCol df "Kanal" fun r => .num (coerceCell (getCell r "Kanal")))
    "Marla" fun r => .num (coerceCell (getCell r "Marla"))

/-- Stage two of `process_data` (src/app.py line 37): the derived column,
`df['Total_Sarshai'] = df.apply(lambda row: convert_to_standard_units(row['Kanal'], row['Marla']), axis=1)`,
computed from the already coerced rows. -/
def df_with_total (df : DataFrame) : DataFrame :=
  assignCol (df_coerced df) "Total_Sarshai" fun r =>
    .num (convert_to_standard_units (coerceCell (getCell r "Kanal"))
      (coerceCell (getCell r "Marla")))

/-- Stage three of `process_data` (src/app.py line 40): the grand total
`total_sarshai = df['Total_Sarshai'].sum()`. -/
def grand_total (df : DataFrame) : ℚ :=
  ((df_with_total df).rows.map fun r => coerceCell (getCell r "Total_Sarshai")).sum

/-- Embedding of `process_data` (src/app.py lines 30-45): coerce the Kanal
and Marla columns in place, attach the per-row `Total_Sarshai` column, sum
it into the grand total and decompose the total via `convert_from_sarshai`.
Accessing a missing Kanal or Marla column raises `KeyError` (line 33 reads
Kanal first, line 34 Marla), modelled as `Except.error` with the column
name as the message; line 43's tuple unpacking is written with projections. -/
def process_data (df : DataFrame) : Except String (DataFrame × ℚ × ℚ × ℚ × ℚ) :=
  if "Kanal" ∈ df.cols then
    if "Marla" ∈ df.cols then
      let t := convert_from_sarshai (grand_total df)
      .ok (df_with_total df, t.1, t.2.1, t.2.2.1, t.2.2.2)
    else .error "Marla"
  else .error "Kanal"

lemma lookup_cons_pair (k : String) (w : Value) (l : Row) (c : String) :
    ((k, w) :: l).lookup c = if c = k then some w else l.lookup c := by
  by_cases h : c = k
  · subst h; simp [List.lookup]
  · have hb : (c == k) = false := beq_false_of_ne h
    simp [List.lookup, hb, h]

lemma setCell_cons (p : String × Value) (r : Row) (c : String) (v : Value) :
    setCell (p :: r) c v = (if p.1 = c then (p.1, v) else p) :: setCell r c v := rfl

lemma lookup_setCell (r : Row) (c c' : String) (v : Value) :
    (setCell r c v).lookup c' =
      if c' = c then (r.lookup c').map fun _ => v else r.lookup c' := by
  induction r with
  | nil => simp [setCell]
  | cons p r ih =>
    obtain ⟨k, w⟩ := p
    by_cases hkc : k = c
    · subst hkc
      by_cases hck : c' = k
      · subst hck; simp [setCell_cons, lookup_cons_pair]
      · simp [setCell_cons, lookup_cons_pair, hck, ih]
    · by_cases hck : c' = k
      · subst hck
        have hcc : ¬c' = c := hkc
        simp [setCell_cons, lookup_cons_pair, hkc, hcc]
      · simp [setCell_cons, lookup_cons_pair, hkc, hck, ih]

lemma lookup_append_row (r s : Row) (c : String) :
    (r ++ s).lookup c = (r.lookup c).or (s.lookup c) := by
  induction r with
  | nil => simp [List.lookup]
  | cons p r ih =>
    obtain ⟨k, w⟩ := p
    rw [List.cons_append, lookup_cons_pair, lookup_cons_pair]
    by_cases h : c = k
    · rw [if_pos h, if_pos h]; rfl
    · rw [if_neg h, if_neg h, ih]

lemma lookup_putCell_self (r : Row) (c : String) (v : Value) :
    (putCell r c v).lookup c = some v := by
  unfold putCell
  by_cases h : (r.lookup c).isSome
  · rw [if_pos h, lookup_setCell, if_pos rfl]
    cases hl : r.lookup c with
    | none => rw [hl] at h; simp at h
    | some w => simp
  · rw [if_neg h, lookup_append_row]
    cases hl : r.lookup c with
    | none => simp [lookup_cons_pair]
    | some w => rw [hl] at h; simp at h

lemma lookup_putCell_ne (r : Row) (c c' : String) (v : Value) (h : c' ≠ c) :
    (putCell r c v).lookup c' = r.lookup c' := by
  unfold putCell
  by_cases hs : (r.lookup c).isSome
  · rw [if_pos hs, lookup_setCell, if_neg h]
  · rw [if_neg hs, lookup_append_row, lookup_cons_pair, if_neg h]
    cases r.lookup c' <;> rfl

/-- Per-row base-unit value of a raw row: convert the coerced Kanal and
Marla cells (the value written into the `Total_Sarshai` column). -/
def row_total (r : Row) : ℚ :=
  convert_to_standard_units (coerceCell (getCell r "Kanal")) (coerceCell (getCell r "Marla"))

/-- The combined effect of `process_data` on one row: Kanal and Marla
overwritten with their coerced values, `Total_Sarshai` attached. -/
def processedRow (r : Row) : Row :=
  putCell (putCell (putCell r "Kanal" (.num (coerceCell (getCell r "Kanal"))))
    "Marla" (.num (coerceCell (getCell r "Marla"))))
    "Total_Sarshai" (.num (row_total r))

lemma df_coerced_rows (df : DataFrame) :
    (df_coerced df).rows = df.rows.map fun r =>
      putCell (putCell r "Kanal" (.num (coerceCell (getCell r "Kanal"))))
        "Marla" (.num (coerceCell (getCell r "Marla"))) := by
  show ((df.rows.map _).map _) = _
  rw [List.map_map]
  apply List.map_congr_left
  intro r _
  show putCell _ "Marla" (.num (coerceCell (getCell (putCell r "Kanal" _) "Marla"))) = _
  rw [getCell, lookup_putCell_ne _ _ _ _ (by decide), ← getCell]

lemma getCell_coerced_kanal (r : Row) (a b : ℚ) :
    getCell (putCell (putCell r "Kanal" (.num a)) "Marla" (.num b)) "Kanal" = .num a := by
  rw [getCell, lookup_putCell_ne _ _ _ _ (by decide), lookup_putCell_self]
  rfl

lemma getCell_coerced_marla (r : Row) (a b : ℚ) :
    getCell (putCell (putCell r "Kanal" (.num a)) "Marla" (.num b)) "Marla" = .num b := by
  rw [getCell, lookup_putCell_self]
  rfl

lemma df_with_total_rows (df : DataFrame) :
    (df_with_total df).rows = df.rows.map processedRow := by
  show ((df_coerced df).rows.map _) = _
  rw [df_coerced_rows, List.map_map]
  apply List.map_congr_left
  intro r _
  simp only [Function.comp, getCell_coerced_kanal, getCell_coerced_marla, coerceCell]
  rfl

lemma lookup_processedRow_total (r : Row) :
    (processedRow r).lookup "Total_Sarshai" = some (.num (row_total r)) := by
  unfold processedRow
  rw [lookup_putCell_self]

lemma lookup_processedRow_kanal (r : Row) :
    (processedRow r).lookup "Kanal" = some (.num (coerceCell (getCell r "Kanal"))) := by
  unfold processedRow
  rw [lookup_putCell_ne _ _ _ _ (by decide), lookup_putCell_ne _ _ _ _ (by decide),
    lookup_putCell_self]

lemma lookup_processedRow_marla (r : Row) :
    (processedRow r).lookup "Marla" = some (.num (coerceCell (getCell r "Marla"))) := by
  unfold processedRow
  rw [lookup_putCell_ne _ _ _ _ (by decide), lookup_putCell_self]

lemma lookup_processedRow_other (r : Row) (c : String) (h1 : c ≠ "Kanal")
    (h2 : c ≠ "Marla") (h3 : c ≠ "Total_Sarshai") :
    (processedRow r).lookup c = r.lookup c := by
  unfold processedRow
  rw [lookup_putCell_ne _ _ _ _ h3, lookup_putCell_ne _ _ _ _ h2,
    lookup_putCell_ne _ _ _ _ h1]

lemma grand_total_eq (df : DataFrame) :
    grand_total df = (df.rows.map row_total).sum := by
  rw [grand_total, df_with_total_rows, List.map_map]
  congr 1
  apply List.map_congr_left
  intro r _
  show coerceCell (getCell (processedRow r) "Total_Sarshai") = row_total r
  rw [getCell, lookup_processedRow_total]
  simp [coerceCell]

lemma df_coerced_cols (df : DataFrame) (hk : "Kanal" ∈ df.cols)
    (hm : "Marla" ∈ df.cols) : (df_coerced df).cols = df.cols := by
  unfold df_coerced assignCol
  simp [hk, hm]

lemma df_with_total_cols (df : DataFrame) (hk : "Kanal" ∈ df.cols)
    (hm : "Marla" ∈ df.cols) (hts : "Total_Sarshai" ∉ df.cols) :
    (df_with_total df).cols = df.cols ++ ["Total_Sarshai"] := by
  unfold df_with_total assignCol
  rw [df_coerced_cols df hk hm]
  simp [hts]

lemma process_data_ok (df : DataFrame) (hk : "Kanal" ∈ df.cols)
    (hm : "Marla" ∈ df.cols) :
    process_data df = .ok (df_with_total df,
      (convert_from_sarshai (grand_total df)).1,
      (convert_from_sarshai (grand_total df)).2.1,
      (convert_from_sarshai (grand_total df)).2.2.1,
      (convert_from_sarshai (grand_total df)).2.2.2) := by
  simp [process_data, hk, hm]

/-- C5: a row set lacking the required Kanal or Marla column is rejected:
`process_data` raises `KeyError` naming a missing column (line 33 checks
Kanal first), and no result or totals are produced. -/
theorem process_data_missing_column (df : DataFrame)
    (h : "Kanal" ∉ df.cols ∨ "Marla" ∉ df.cols) :
    ∃ c, (c = "Kanal" ∨ c = "Marla") ∧ c ∉ df.cols ∧ process_data df = .error c ∧
      ∀ res, process_data df ≠ .ok res := by
  by_cases hk : "Kanal" ∈ df.cols
  · have hm : "Marla" ∉ df.cols := by
      rcases h with h | h
      · exact absurd hk h
      · exact h
    have herr : process_data df = .error "Marla" := by simp [process_data, hk, hm]
    exact ⟨"Marla", Or.inr rfl, hm, herr, fun res hres => by rw [herr] at hres; cases hres⟩
  · have herr : process_data df = .error "Kanal" := by simp [process_data, hk]
    exact ⟨"Kanal", Or.inl rfl, hk, herr, fun res hres => by rw [herr] at hres; cases hres⟩

/-- Concrete row set for the C5 witness: it has a Kanal column but no Marla
column. -/
def dfNoMarla : DataFrame :=
  ⟨["Khewat", "Kanal"], [[("Khewat", .str "594"), ("Kanal", .num 0)]]⟩

/-- Witness for C5 on a row set missing the Marla column. -/
theorem process_data_missing_column_witness :
    ("Kanal" ∉ dfNoMarla.cols ∨ "Marla" ∉ dfNoMarla.cols) ∧
      ∃ c, (c = "Kanal" ∨ c = "Marla") ∧ c ∉ dfNoMarla.cols ∧
        process_data dfNoMarla = .error c ∧ ∀ res, process_data dfNoMarla ≠ .ok res :=
  ⟨Or.inr (by decide), process_data_missing_column dfNoMarla (Or.inr (by decide))⟩

/-- A cell that `pd.to_numeric(·, errors='coerce')` turns into NaN: a
non-numeric string or a missing value. -/
def isNonNumeric (v : Value) : Bool :=
  match v with
  | .num _ => false
  | .str s => s.toInt?.isNone
  | .na => true

lemma coerceCell_of_isNonNumeric (v : Value) (h : isNonNumeric v = true) :
    coerceCell v = 0 := by
  cases v with
  | num q => simp [isNonNumeric] at h
  | str s =>
    have hs : s.toInt? = none := by
      simpa [isNonNumeric, Option.isNone_iff_eq_none] using h
    simp [coerceCell, hs]
  | na => rfl

/-- C8: with the Kanal and Marla columns present, the batch always succeeds
(no cell value can make it raise); every non-numeric or missing cell is
coerced to 0, and a row whose Kanal or Marla cell is non-numeric gets that
cell replaced by 0 and converted as 0. -/
theorem process_data_cell_coercion (df : DataFrame) (hk : "Kanal" ∈ df.cols)
    (hm : "Marla" ∈ df.cols) :
    (∃ out, process_data df = .ok out) ∧
    (∀ v, isNonNumeric v = true → coerceCell v = 0) ∧
    (∀ r ∈ df.rows, isNonNumeric (getCell r "Marla") = true →
      (processedRow r).lookup "Marla" = some (.num 0) ∧
      row_total r = convert_to_standard_units (coerceCell (getCell r "Kanal")) 0) ∧
    (∀ r ∈ df.rows, isNonNumeric (getCell r "Kanal") = true →
      (processedRow r).lookup "Kanal" = some (.num 0) ∧
      row_total r = convert_to_standard_units 0 (coerceCell (getCell r "Marla"))) := by
  refine ⟨⟨_, process_data_ok df hk hm⟩, fun v h => coerceCell_of_isNonNumeric v h, ?_, ?_⟩
  · intro r _ hmr
    have h0 := coerceCell_of_isNonNumeric _ hmr
    exact ⟨by rw [lookup_processedRow_marla, h0], by rw [row_total, h0]⟩
  · intro r _ hkr
    have h0 := coerceCell_of_isNonNumeric _ hkr
    exact ⟨by rw [lookup_processedRow_kanal, h0], by rw [row_total, h0]⟩

/-- Concrete row set for the C8 witness: the Marla cell is an empty string. -/
def dfEmptyMarla : DataFrame :=
  ⟨["Kanal", "Marla"], [[("Kanal", .num 1), ("Marla", .str "")]]⟩

/-- Witness for C8 on a row whose Marla cell is the empty string. -/
theorem process_data_cell_coercion_witness :
    ("Kanal" ∈ dfEmptyMarla.cols ∧ "Marla" ∈ dfEmptyMarla.cols) ∧
      ((∃ out, process_data dfEmptyMarla = .ok out) ∧
       (∀ v, isNonNumeric v = true → coerceCell v = 0) ∧
       (∀ r ∈ dfEmptyMarla.rows, isNonNumeric (getCell r "Marla") = true →
         (processedRow r).lookup "Marla" = some (.num 0) ∧
         row_total r = convert_to_standard_units (coerceCell (getCell r "Kanal")) 0) ∧
       (∀ r ∈ dfEmptyMarla.rows, isNonNumeric (getCell r "Kanal") = true →
         (processedRow r).lookup "Kanal" = some (.num 0) ∧
         row_total r = convert_to_standard_units 0 (coerceCell (getCell r "Marla")))) :=
  ⟨⟨by decide, by decide⟩,
    process_data_cell_coercion dfEmptyMarla (by decide) (by decide)⟩

/-- Counterexample to C6 as stated: on a row whose Marla cell is a
non-numeric string, `process_data` returns the row with the raw Marla field
overwritten by the coerced numeric 0 (lines 33-34 write the coerced columns
back into the frame), so the caller's raw Marla field is not preserved. -/
theorem process_data_mutates_cells_cex :
    ∃ out : DataFrame × ℚ × ℚ × ℚ × ℚ,
      process_data dfEmptyMarla = .ok out ∧
      out.1.rows.map (fun r => r.lookup "Marla") ≠
        dfEmptyMarla.rows.map (fun r => r.lookup "Marla") := by
  have he : ("" : String).toInt? = none := by decide
  refine ⟨_, process_data_ok dfEmptyMarla (by decide) (by decide), ?_⟩
  show (df_with_total dfEmptyMarla).rows.map (fun r => r.lookup "Marla") ≠ _
  rw [df_with_total_rows]
  show [(processedRow [("Kanal", .num 1), ("Marla", .str "")]).lookup "Marla"] ≠ _
  rw [lookup_processedRow_marla]
  simp [dfEmptyMarla, getCell, lookup_cons_pair, coerceCell, he]

/-- C6 amended: `process_data` attaches the per-row base-unit value as a new
rightmost `Total_Sarshai` column and passes every other field through
unchanged, but it overwrites the Kanal and Marla fields with their coerced
numeric values (they are unchanged only when already numeric). -/
theorem process_data_frame_effects (df : DataFrame) (hk : "Kanal" ∈ df.cols)
    (hm : "Marla" ∈ df.cols) (hts : "Total_Sarshai" ∉ df.cols) :
    ∃ out : DataFrame × ℚ × ℚ × ℚ × ℚ,
      process_data df = .ok out ∧
      out.1.cols = df.cols ++ ["Total_Sarshai"] ∧
      out.1.rows = df.rows.map processedRow ∧
      ∀ r ∈ df.rows,
        (processedRow r).lookup "Total_Sarshai" = some (.num (row_total r)) ∧
        (processedRow r).lookup "Kanal" = some (.num (coerceCell (getCell r "Kanal"))) ∧
        (processedRow r).lookup "Marla" = some (.num (coerceCell (getCell r "Marla"))) ∧
        ∀ c, c ≠ "Kanal" → c ≠ "Marla" → c ≠ "Total_Sarshai" →
          (processedRow r).lookup c = r.lookup c := by
  refine ⟨_, process_data_ok df hk hm, df_with_total_cols df hk hm hts,
    df_with_total_rows df, ?_⟩
  intro r _
  exact ⟨lookup_processedRow_total r, lookup_processedRow_kanal r,
    lookup_processedRow_marla r, fun c h1 h2 h3 => lookup_processedRow_other r c h1 h2 h3⟩

/-- Concrete row set for the C6 witness: one row with an extra descriptive
Khewat field. -/
def dfKhewat : DataFrame :=
  ⟨["Khewat", "Kanal", "Marla"],
   [[("Khewat", .str "594"), ("Kanal", .num 0), ("Marla", .num 19)]]⟩

/-- Witness for the amended C6 on a row set with a Khewat field. -/
theorem process_data_frame_effects_witness :
    ("Kanal" ∈ dfKhewat.cols ∧ "Marla" ∈ dfKhewat.cols ∧
        "Total_Sarshai" ∉ dfKhewat.cols) ∧
      ∃ out : DataFrame × ℚ × ℚ × ℚ × ℚ,
        process_data dfKhewat = .ok out ∧
        out.1.cols = dfKhewat.cols ++ ["Total_Sarshai"] ∧
        out.1.rows = dfKhewat.rows.map processedRow ∧
        ∀ r ∈ dfKhewat.rows,
          (processedRow r).lookup "Total_Sarshai" = some (.num (row_total r)) ∧
          (processedRow r).lookup "Kanal" = some (.num (coerceCell (getCell r "Kanal"))) ∧
          (processedRow r).lookup "Marla" = some (.num (coerceCell (getCell r "Marla"))) ∧
          ∀ c, c ≠ "Kanal" → c ≠ "Marla" → c ≠ "Total_Sarshai" →
            (processedRow r).lookup c = r.lookup c :=
  ⟨⟨by decide, by decide, by decide⟩,
    process_data_frame_effects dfKhewat (by decide) (by decide) (by decide)⟩

/-- Sum of one (coerced) column of a row set, as `df[c].sum()` computes it. -/
def colSum (df : DataFrame) (c : String) : ℚ :=
  (df.rows.map fun r => coerceCell (getCell r c)).sum

/-- Concrete row set for the C7 counterexample. Its raw column sums are
Kanal 3 and Marla 55. -/
def dfTwoRows : DataFrame :=
  ⟨["Kanal", "Marla"],
   [[("Kanal", .num 1), ("Marla", .num 25)], [("Kanal", .num 2), ("Marla", .num 30)]]⟩

/-- Counterexample to C7 as stated: the raw column sums (3 and 55 here)
appear nowhere in the output of `process_data` — the four returned scalars
are the mixed-radix decomposition (0, 5, 15, 0) of the base-unit total, and
no cell of the returned row set holds 3 or 55 either. The function exposes
no raw-sum totals. -/
theorem process_data_no_raw_sums_cex :
    ∃ out : DataFrame × ℚ × ℚ × ℚ × ℚ,
      process_data dfTwoRows = .ok out ∧
      colSum dfTwoRows "Kanal" = 3 ∧ colSum dfTwoRows "Marla" = 55 ∧
      out.2.1 = 0 ∧ out.2.2.1 = 5 ∧ out.2.2.2.1 = 15 ∧ out.2.2.2.2 = 0 ∧
      (∀ r ∈ out.1.rows, ∀ p ∈ r, p.2 ≠ Value.num 3 ∧ p.2 ≠ Value.num 55) := by
  have hgt : grand_total dfTwoRows = 1035 := by
    rw [grand_total_eq]
    norm_num +decide [dfTwoRows, row_total, getCell, lookup_cons_pair, coerceCell,
      convert_to_standard_units, KANAL_PER_MARLA, MARLA_PER_SARSHAI]
  have h1035 : convert_from_sarshai (1035 : ℚ) = (0, 5, 15, 0) := by
    have h := convert_from_sarshai_natCast 1035
    norm_num at h
    exact h
  have hrows : (df_with_total dfTwoRows).rows =
      [[("Kanal", Value.num 1), ("Marla", Value.num 25), ("Total_Sarshai", Value.num 405)],
       [("Kanal", Value.num 2), ("Marla", Value.num 30), ("Total_Sarshai", Value.num 630)]] := by
    rw [df_with_total_rows]
    have hb1 : (("Marla" : String) == "Kanal") = false := by decide
    have hb2 : (("Total_Sarshai" : String) == "Kanal") = false := by decide
    have hb3 : (("Total_Sarshai" : String) == "Marla") = false := by decide
    norm_num +decide [dfTwoRows, processedRow, row_total, putCell, setCell, getCell,
      List.lookup, coerceCell, convert_to_standard_units, KANAL_PER_MARLA,
      MARLA_PER_SARSHAI, hb1, hb2, hb3]
  refine ⟨_, process_data_ok dfTwoRows (by decide) (by decide), ?_, ?_, ?_, ?_, ?_, ?_, ?_⟩
  · norm_num +decide [colSum, dfTwoRows, getCell, lookup_cons_pair, coerceCell]
  · norm_num +decide [colSum, dfTwoRows, getCell, lookup_cons_pair, coerceCell]
  · show (convert_from_sarshai (grand_total dfTwoRows)).1 = 0
    rw [hgt, h1035]
  · show (convert_from_sarshai (grand_total dfTwoRows)).2.1 = 5
    rw [hgt, h1035]
  · show (convert_from_sarshai (grand_total dfTwoRows)).2.2.1 = 15
    rw [hgt, h1035]
  · show (convert_from_sarshai (grand_total dfTwoRows)).2.2.2 = 0
    rw [hgt, h1035]
  · show ∀ r ∈ (df_with_total dfTwoRows).rows, _
    rw [hrows]
    intro r hr
    simp only [List.mem_cons, List.not_mem_nil, or_false] at hr
    rcases hr with rfl | rfl <;>
      · intro p hp
        simp only [List.mem_cons, List.not_mem_nil, or_false] at hp
        rcases hp with rfl | rfl | rfl <;> refine ⟨?_, ?_⟩ <;> simp

/-- The coerced Kanal value of a processed row equals the coerced Kanal
value of the raw row. -/
lemma coerce_processedRow_kanal (r : Row) :
    coerceCell (getCell (processedRow r) "Kanal") = coerceCell (getCell r "Kanal") := by
  rw [getCell, lookup_processedRow_kanal]
  rfl

/-- The coerced Marla value of a processed row equals the coerced Marla
value of the raw row. -/
lemma coerce_processedRow_marla (r : Row) :
    coerceCell (getCell (processedRow r) "Marla") = coerceCell (getCell r "Marla") := by
  rw [getCell, lookup_processedRow_marla]
  rfl

/-- C7 amended: `process_data` does not expose raw-sum totals as separate
outputs — the only scalar outputs are the four mixed-radix components of the
grand total. The raw sums remain recoverable from the returned row set: the
column sums of the returned frame's Kanal and Marla columns equal the
coerced input column sums exactly. -/
theorem process_data_raw_sums_recoverable (df : DataFrame) (hk : "Kanal" ∈ df.cols)
    (hm : "Marla" ∈ df.cols) :
    ∃ out : DataFrame × ℚ × ℚ × ℚ × ℚ,
      process_data df = .ok out ∧
      colSum out.1 "Kanal" = colSum df "Kanal" ∧
      colSum out.1 "Marla" = colSum df "Marla" := by
  refine ⟨_, process_data_ok df hk hm, ?_, ?_⟩
  · show colSum (df_with_total df) "Kanal" = _
    rw [colSum, colSum, df_with_total_rows, List.map_map]
    congr 1
    apply List.map_congr_left
    intro r _
    exact coerce_processedRow_kanal r
  · show colSum (df_with_total df) "Marla" = _
    rw [colSum, colSum, df_with_total_rows, List.map_map]
    congr 1
    apply List.map_congr_left
    intro r _
    exact coerce_processedRow_marla r

/-- Witness for the amended C7 on a two-row set. -/
theorem process_data_raw_sums_recoverable_witness :
    ("Kanal" ∈ dfTwoRows.cols ∧ "Marla" ∈ dfTwoRows.cols) ∧
      ∃ out : DataFrame × ℚ × ℚ × ℚ × ℚ,
        process_data dfTwoRows = .ok out ∧
        colSum out.1 "Kanal" = colSum dfTwoRows "Kanal" ∧
        colSum out.1 "Marla" = colSum dfTwoRows "Marla" :=
  ⟨⟨by decide, by decide⟩,
    process_data_raw_sums_recoverable dfTwoRows (by decide) (by decide)⟩

/-- Concrete row set of the spec's scenario: rows (Kanal=0, Marla=19) and
(Kanal=0, Marla=3). -/
def dfScenario : DataFrame :=
  ⟨["Kanal", "Marla"],
   [[("Kanal", .num 0), ("Marla", .num 19)], [("Kanal", .num 0), ("Marla", .num 3)]]⟩

/-- C9: on the scenario rows the per-row base-unit values are 171 and 27,
the grand total is 198 Sarshai, and it decomposes to
(kila, kanal, marla, sarshai) = (0, 1, 2, 0). -/
theorem process_data_scenario :
    row_total [("Kanal", Value.num 0), ("Marla", Value.num 19)] = 171 ∧
    row_total [("Kanal", Value.num 0), ("Marla", Value.num 3)] = 27 ∧
    grand_total dfScenario = 198 ∧
    process_data dfScenario = .ok (df_with_total dfScenario, 0, 1, 2, 0) := by
  have h1 : row_total [("Kanal", Value.num 0), ("Marla", Value.num 19)] = 171 := by
    norm_num +decide [row_total, getCell, lookup_cons_pair, coerceCell,
      convert_to_standard_units, KANAL_PER_MARLA, MARLA_PER_SARSHAI]
  have h2 : row_total [("Kanal", Value.num 0), ("Marla", Value.num 3)] = 27 := by
    norm_num +decide [row_total, getCell, lookup_cons_pair, coerceCell,
      convert_to_standard_units, KANAL_PER_MARLA, MARLA_PER_SARSHAI]
  have hgt : grand_total dfScenario = 198 := by
    rw [grand_total_eq]
    show row_total _ + (row_total _ + 0) = 198
    rw [h1, h2]
    norm_num
  have h198 : convert_from_sarshai (198 : ℚ) = (0, 1, 2, 0) := by
    have h := convert_from_sarshai_natCast 198
    norm_num at h
    exact h
  refine ⟨h1, h2, hgt, ?_⟩
  rw [process_data_ok dfScenario (by decide) (by decide), hgt, h198]

lemma pyFloorDiv_intCast (z : ℤ) (k : ℕ) :
    pyFloorDiv (z : ℚ) (k : ℚ) = ((z / (k : ℤ) : ℤ) : ℚ) := by
  simp only [pyFloorDiv, Rat.floor_intCast_div_natCast]

lemma pyMod_intCast (z : ℤ) (k : ℕ) :
    pyMod (z : ℚ) (k : ℚ) = ((z % (k : ℤ) : ℤ) : ℚ) := by
  rw [pyMod, pyFloorDiv_intCast, Int.emod_def]
  push_cast
  ring

/-- Any integer multiple of 9 decomposes with Sarshai component 0: all
three moduli (1440, 180, 9) are multiples of 9. -/
lemma sarshai_mul_nine (z : ℤ) :
    (convert_from_sarshai ((9 * z : ℤ) : ℚ)).2.2.2 = 0 := by
  have h1440 : ((1440 : ℕ) : ℚ) = 1440 := by norm_num
  have h180 : ((180 : ℕ) : ℚ) = 180 := by norm_num
  have h9 : ((9 : ℕ) : ℚ) = 9 := by norm_num
  simp only [convert_from_sarshai_eq]
  rw [← h1440, ← h180, ← h9, pyMod_intCast, pyMod_intCast, pyMod_intCast]
  have ho : 9 * z % ((1440 : ℕ) : ℤ) % ((180 : ℕ) : ℤ) % ((9 : ℕ) : ℤ) = 0 := by
    push_cast
    omega
  rw [ho]
  norm_num

lemma sum_of_nine_multiples (L : List ℚ) (h : ∀ x ∈ L, ∃ c : ℤ, x = 9 * (c : ℚ)) :
    ∃ k : ℤ, L.sum = 9 * (k : ℚ) := by
  induction L with
  | nil => exact ⟨0, by simp⟩
  | cons x L ih =>
    obtain ⟨c, hc⟩ := h x (List.mem_cons_self x L)
    obtain ⟨k, hk⟩ := ih fun y hy => h y (List.mem_cons_of_mem x hy)
    refine ⟨c + k, ?_⟩
    rw [List.sum_cons, hc, hk]
    push_cast
    ring

lemma row_total_int (r : Row) (a b : ℤ)
    (ha : coerceCell (getCell r "Kanal") = (a : ℚ))
    (hb : coerceCell (getCell r "Marla") = (b : ℚ)) :
    row_total r = 9 * ((20 * a + b : ℤ) : ℚ) := by
  rw [row_total, ha, hb]
  simp only [convert_to_standard_units, KANAL_PER_MARLA, MARLA_PER_SARSHAI]
  push_cast
  ring

/-- C10: when every coerced Kanal and Marla value is an integer, every
per-row base-unit value is a multiple of 9, hence so is the grand total,
and the Sarshai component of the decomposed total — the Sarshai figure
`process_data` returns — is 0. -/
theorem integer_rows_sarshai_zero (df : DataFrame)
    (hint : ∀ r ∈ df.rows, (∃ a : ℤ, coerceCell (getCell r "Kanal") = (a : ℚ)) ∧
      (∃ b : ℤ, coerceCell (getCell r "Marla") = (b : ℚ))) :
    (∀ r ∈ df.rows, ∃ c : ℤ, row_total r = 9 * (c : ℚ)) ∧
    (∃ k : ℤ, grand_total df = 9 * (k : ℚ)) ∧
    (convert_from_sarshai (grand_total df)).2.2.2 = 0 ∧
    ("Kanal" ∈ df.cols → "Marla" ∈ df.cols →
      process_data df = .ok (df_with_total df,
        (convert_from_sarshai (grand_total df)).1,
        (convert_from_sarshai (grand_total df)).2.1,
        (convert_from_sarshai (grand_total df)).2.2.1, 0)) := by
  have hrows : ∀ r ∈ df.rows, ∃ c : ℤ, row_total r = 9 * (c : ℚ) := by
    intro r hr
    obtain ⟨⟨a, ha⟩, ⟨b, hb⟩⟩ := hint r hr
    exact ⟨20 * a + b, row_total_int r a b ha hb⟩
  obtain ⟨k, hk⟩ : ∃ k : ℤ, grand_total df = 9 * (k : ℚ) := by
    rw [grand_total_eq]
    refine sum_of_nine_multiples _ ?_
    intro x hx
    obtain ⟨r, hr, rfl⟩ := List.mem_map.mp hx
    exact hrows r hr
  have hz : (convert_from_sarshai (grand_total df)).2.2.2 = 0 := by
    rw [hk, show (9 : ℚ) * (k : ℚ) = ((9 * k : ℤ) : ℚ) from by push_cast; ring]
    exact sarshai_mul_nine k
  refine ⟨hrows, ⟨k, hk⟩, hz, fun hkc hmc => ?_⟩
  rw [process_data_ok df hkc hmc, hz]

/-- Concrete row set for the C10 witness: integer Kanal and Marla values. -/
def dfIntRows : DataFrame :=
  ⟨["Kanal", "Marla"], [[("Kanal", .num 2), ("Marla", .num 3)]]⟩

/-- Witness for C10 on a one-row integer data set. -/
theorem integer_rows_sarshai_zero_witness :
    (∀ r ∈ dfIntRows.rows, (∃ a : ℤ, coerceCell (getCell r "Kanal") = (a : ℚ)) ∧
      (∃ b : ℤ, coerceCell (getCell r "Marla") = (b : ℚ))) ∧
    ((∀ r ∈ dfIntRows.rows, ∃ c : ℤ, row_total r = 9 * (c : ℚ)) ∧
     (∃ k : ℤ, grand_total dfIntRows = 9 * (k : ℚ)) ∧
     (convert_from_sarshai (grand_total dfIntRows)).2.2.2 = 0 ∧
     ("Kanal" ∈ dfIntRows.cols → "Marla" ∈ dfIntRows.cols →
       process_data dfIntRows = .ok (df_with_total dfIntRows,
         (convert_from_sarshai (grand_total dfIntRows)).1,
         (convert_from_sarshai (grand_total dfIntRows)).2.1,
         (convert_from_sarshai (grand_total dfIntRows)).2.2.1, 0))) := by
  have hint : ∀ r ∈ dfIntRows.rows, (∃ a : ℤ, coerceCell (getCell r "Kanal") = (a : ℚ)) ∧
      (∃ b : ℤ, coerceCell (getCell r "Marla") = (b : ℚ)) := by
    intro r hr
    simp only [dfIntRows, List.mem_cons, List.not_mem_nil, or_false] at hr
    subst hr
    constructor
    · exact ⟨2, by norm_num +decide [getCell, lookup_cons_pair, coerceCell]⟩
    · exact ⟨3, by norm_num +decide [getCell, lookup_cons_pair, coerceCell]⟩
  exact ⟨hint, integer_rows_sarshai_zero dfIntRows hint⟩
